import Mathlib

/-
Verification development for a minimal social-network backend
(Flask request handlers over a MongoDB document store).

Embedded source files:
  app.py                            -- the request handlers
  models.py                         -- User and Tweet models
  utils/api_response_generator.py   -- the response envelope builder

The store holds two collections, users and tweets.  Identifiers are BSON
ObjectId values (24-hex-character strings at the API boundary); the tweet
creation handler stores the author identifier as the raw request string,
while the follow handler stores ObjectId values, so the embedding keeps
the BSON type of every stored identifier.
-/

set_option autoImplicit false

/-- A BSON value as far as identifier comparison is concerned: an ObjectId
(carrying its 24-hex-character rendering) or a plain string.  MongoDB
equality never identifies an ObjectId with a string. -/
inductive MongoVal where
  | oid : String → MongoVal
  | str : String → MongoVal
deriving DecidableEq, Repr

/-- A Python/JSON value as it appears in response envelopes. -/
inductive PyVal where
  | none : PyVal
  | bool : Bool → PyVal
  | int : Nat → PyVal
  | str : String → PyVal
  | oid : String → PyVal
  | list : List PyVal → PyVal
  | dict : List (String × PyVal) → PyVal
deriving Repr

/-- Python truthiness of the values above, as used by the envelope builder
(`if code:`). -/
def truthy : PyVal → Bool
  | PyVal.none => false
  | PyVal.bool b => b
  | PyVal.int n => decide (n ≠ 0)
  | PyVal.str s => decide (s ≠ "")
  | PyVal.oid _ => true
  | PyVal.list l => !l.isEmpty
  | PyVal.dict d => !d.isEmpty

/-- First-match lookup in a Python dict rendered as an insertion-ordered
association list. -/
def lookupKey : List (String × PyVal) → String → Option PyVal
  | [], _ => Option.none
  | (k, v) :: rest, key => if k = key then some v else lookupKey rest key

/-- Read a key of a response dict; anything that is not a dict has no keys. -/
def getKey : PyVal → String → Option PyVal
  | PyVal.dict kvs, key => lookupKey kvs key
  | _, _ => Option.none

/-- From utils/api_response_generator.py, create_api_response: builds
the envelope dict in insertion order; data is stored exactly when the
status is success, error exactly when the status is error, and code
exactly when the code argument is truthy. -/
def create_api_response (status message : String) (data error code : PyVal) : PyVal :=
  PyVal.dict
    ([("status", PyVal.str status), ("message", PyVal.str message)]
      ++ (if status = "success" then [("data", data)]
          else if status = "error" then [("error", error)]
          else [])
      ++ (if truthy code then [("code", code)] else []))

/-- A stored user document (collection users).  The _id field holds the
hex rendering of the ObjectId the store assigned. -/
structure UserDoc where
  _id : String
  username : String
  email : String
  created_at : Nat
  following : List MongoVal
deriving DecidableEq, Repr

/-- A stored tweet document (collection tweets).  user_id keeps the BSON
type it was inserted with. -/
structure TweetDoc where
  _id : String
  user_id : MongoVal
  text : String
  created_at : Nat
deriving DecidableEq, Repr

/-- The document store: the users and tweets collections. -/
structure DB where
  users : List UserDoc
  tweets : List TweetDoc
deriving DecidableEq, Repr

/-- Whether a string is a well-formed 24-hex-character ObjectId rendering;
the ObjectId constructor raises InvalidId on anything else. -/
def validOid (s : String) : Bool :=
  decide (s.length = 24) &&
    s.toList.all (fun c => c.isDigit || (decide (97 ≤ c.toNat) && decide (c.toNat ≤ 102))
      || (decide (65 ≤ c.toNat) && decide (c.toNat ≤ 70)))

/-- The message text of the InvalidId exception raised by the ObjectId
constructor on a malformed identifier string. -/
def invalidIdMsg (s : String) : String :=
  s ++ " is not a valid ObjectId, it must be a 12-byte input or a 24-character hex string"

/-- find_one on the users collection with an _id filter: the first stored
document whose _id equals the queried ObjectId. -/
def findUser : List UserDoc → String → Option UserDoc
  | [], _ => Option.none
  | u :: rest, i => if u._id = i then some u else findUser rest i

/-- MongoDB membership test used by the in-set timeline filter: BSON
equality against each element, an ObjectId never equal to a string. -/
def inList (x : MongoVal) : List MongoVal → Bool
  | [] => false
  | y :: ys => if x = y then true else inList x ys

/-- update_one on users with an _id filter and an addToSet update on the
following field: rewrites the first document whose _id matches, appending
the ObjectId unless already present, and reports the number of documents
modified (0 when the value was already in the set or no document matched). -/
def updateOneFollowing : List UserDoc → String → String → List UserDoc × Nat
  | [], _, _ => ([], 0)
  | u :: rest, cid, target =>
    if u._id = cid then
      if MongoVal.oid target ∈ u.following then (u :: rest, 0)
      else ({ u with following := u.following ++ [MongoVal.oid target] } :: rest, 1)
    else
      let (rest2, n) := updateOneFollowing rest cid target
      (u :: rest2, n)

/-- Python truthiness of an optional request string: absent or empty. -/
def falsyStr : Option String → Bool
  | Option.none => true
  | some s => decide (s = "")

/-- Render a stored BSON identifier into the response value the handlers
emit for it when they do not stringify it. -/
def mongoToPy : MongoVal → PyVal
  | MongoVal.oid s => PyVal.oid s
  | MongoVal.str s => PyVal.str s

/-- From models.py, the Tweet constructor: author identifier kept as the
raw string from the request, text, creation timestamp. -/
structure TweetModel where
  user_id : String
  text : String
  created_at : Nat

/-- From models.py, Tweet.save: inserts the tweet document — the author
identifier is stored as a BSON string, not an ObjectId — and returns the
inserted id. -/
def TweetModel.save (t : TweetModel) (db : DB) (freshId : String) : String × DB :=
  (freshId,
    { db with tweets := db.tweets ++
        [{ _id := freshId, user_id := MongoVal.str t.user_id,
           text := t.text, created_at := t.created_at }] })

/-- From models.py, the User constructor. -/
structure UserModel where
  username : String
  email : String
  created_at : Nat
  following : List MongoVal

/-- From models.py, User.save: inserts the user document and returns the
inserted id. -/
def UserModel.save (u : UserModel) (db : DB) (freshId : String) : String × DB :=
  (freshId,
    { db with users := db.users ++
        [{ _id := freshId, username := u.username, email := u.email,
           created_at := u.created_at, following := u.following }] })

/-- Render a user document the way models.py User.get_by_id returns it:
only _id converted to a string, following kept as stored. -/
def userToPy (u : UserDoc) : PyVal :=
  PyVal.dict [("_id", PyVal.str u._id), ("username", PyVal.str u.username),
    ("email", PyVal.str u.email), ("created_at", PyVal.int u.created_at),
    ("following", PyVal.list (u.following.map mongoToPy))]

/-- From models.py, User.get_by_id: converts the identifier string to an
ObjectId (raising on a malformed string), finds the document, stringifies
its _id. -/
def User.get_by_id (user_id : String) (db : DB) : Except String (Option PyVal) :=
  if validOid user_id then
    match findUser db.users user_id with
    | some u => Except.ok (some (userToPy u))
    | Option.none => Except.ok Option.none
  else Except.error (invalidIdMsg user_id)

/-- Render a tweet document the way the timeline handler returns it:
only _id converted to a string, user_id kept as stored. -/
def tweetToPy (t : TweetDoc) : PyVal :=
  PyVal.dict [("_id", PyVal.str t._id), ("user_id", mongoToPy t.user_id),
    ("text", PyVal.str t.text), ("created_at", PyVal.int t.created_at)]

/-- The body/status-code pair a handler returns. -/
structure ApiResult where
  body : PyVal
  code : Nat
deriving Repr

/-- From app.py, the POST /users handler create_user: 400 when username or
email is absent or empty, otherwise saves the user (with an empty following
list and the current timestamp) and answers 201 with the assigned id. -/
def create_user (db : DB) (username email : Option String) (freshId : String) (now : Nat) :
    ApiResult × DB :=
  match username, email with
  | some un, some em =>
    if decide (un = "") || decide (em = "") then
      ({ body := create_api_response "error" "Username and email are required" PyVal.none
           (PyVal.dict [("code", PyVal.int 400),
             ("details", PyVal.str "Both username and email are required in the request")])
           (PyVal.int 400), code := 400 }, db)
    else
      let new_user : UserModel := { username := un, email := em, created_at := now, following := [] }
      let (uid, db1) := UserModel.save new_user db freshId
      ({ body := create_api_response "success" "User created successfully"
           (PyVal.dict [("user_id", PyVal.str uid), ("username", PyVal.str un),
             ("email", PyVal.str em)])
           PyVal.none (PyVal.int 201), code := 201 }, db1)
  | _, _ =>
    ({ body := create_api_response "error" "Username and email are required" PyVal.none
         (PyVal.dict [("code", PyVal.int 400),
           ("details", PyVal.str "Both username and email are required in the request")])
         (PyVal.int 400), code := 400 }, db)

/-- From app.py, the POST /tweets handler create_tweet: 400 when user_id or
text is absent or empty; otherwise saves the tweet — with the raw request
string as author identifier and with no check that the author exists — and
answers 201. -/
def create_tweet (db : DB) (user_id text : Option String) (freshId : String) (now : Nat) :
    ApiResult × DB :=
  match user_id, text with
  | some uid, some tx =>
    if decide (uid = "") || decide (tx = "") then
      ({ body := create_api_response "error" "User ID and tweet text are required" PyVal.none
           (PyVal.dict [("code", PyVal.int 400),
             ("details", PyVal.str "Both user_id and text are required in the request")])
           (PyVal.int 400), code := 400 }, db)
    else
      let new_tweet : TweetModel := { user_id := uid, text := tx, created_at := now }
      let (tid, db1) := TweetModel.save new_tweet db freshId
      ({ body := create_api_response "success" "Tweet created successfully"
           (PyVal.dict [("tweet_id", PyVal.str tid), ("user_id", PyVal.str uid),
             ("text", PyVal.str tx)])
           PyVal.none (PyVal.int 201), code := 201 }, db1)
  | _, _ =>
    ({ body := create_api_response "error" "User ID and tweet text are required" PyVal.none
         (PyVal.dict [("code", PyVal.int 400),
           ("details", PyVal.str "Both user_id and text are required in the request")])
         (PyVal.int 400), code := 400 }, db)

/-- From app.py, the POST /users/(user_id)/follow handler follow_user:
400 (no error details) when current_user_id is absent or empty; 500 with
the exception text when either identifier string is malformed; 404 (no
error details) when either user is missing; otherwise an addToSet update
of the follower document, answering 200 when one document was modified and
500 "Failed to follow user" (no error details) when zero were. -/
def follow_user (db : DB) (user_id : String) (current_user_id : Option String) :
    ApiResult × DB :=
  if falsyStr current_user_id then
    ({ body := create_api_response "error" "current_user_id is required" PyVal.none PyVal.none
         (PyVal.int 400), code := 400 }, db)
  else
    match current_user_id with
    | Option.none =>
      ({ body := create_api_response "error" "current_user_id is required" PyVal.none PyVal.none
           (PyVal.int 400), code := 400 }, db)
    | some cid =>
      if validOid user_id && validOid cid then
        match findUser db.users user_id, findUser db.users cid with
        | some _, some _ =>
          let (users1, modified) := updateOneFollowing db.users cid user_id
          let db1 : DB := { db with users := users1 }
          if modified = 1 then
            ({ body := create_api_response "success" "User followed successfully"
                 (PyVal.dict [("user_id", PyVal.str user_id)]) PyVal.none (PyVal.int 200),
               code := 200 }, db1)
          else
            ({ body := create_api_response "error" "Failed to follow user" PyVal.none PyVal.none
                 (PyVal.int 500), code := 500 }, db1)
        | _, _ =>
          ({ body := create_api_response "error" "User or current user not found" PyVal.none
               PyVal.none (PyVal.int 404), code := 404 }, db)
      else
        ({ body := create_api_response "error" "Error following user" PyVal.none
             (PyVal.dict [("code", PyVal.int 500),
               ("details", PyVal.str (invalidIdMsg (if validOid user_id then cid else user_id)))])
             (PyVal.int 500), code := 500 }, db)

/-- From app.py, the GET /users/(user_id)/timeline handler
get_user_timeline: 500 with the exception text on a malformed identifier;
404 (no error details) when the user is missing; a success envelope with
empty data and message "No users followed yet" when the following list is
empty; otherwise the tweets whose author identifier is in the following
list, rendered with stringified _id. -/
def get_user_timeline (db : DB) (user_id : String) : ApiResult :=
  if validOid user_id then
    match findUser db.users user_id with
    | Option.none =>
      { body := create_api_response "error" "User not found" PyVal.none PyVal.none
          (PyVal.int 404), code := 404 }
    | some u =>
      let following_ids := u.following
      if following_ids.isEmpty then
        { body := create_api_response "success" "No users followed yet" (PyVal.list [])
            PyVal.none (PyVal.int 200), code := 200 }
      else
        let tweets := db.tweets.filter (fun t => inList t.user_id following_ids)
        { body := create_api_response "success" "Timeline retrieved successfully"
            (PyVal.list (tweets.map tweetToPy)) PyVal.none (PyVal.int 200), code := 200 }
  else
    { body := create_api_response "error" "Error fetching timeline" PyVal.none
        (PyVal.dict [("code", PyVal.int 500), ("details", PyVal.str (invalidIdMsg user_id))])
        (PyVal.int 500), code := 500 }

/-- How many times a BSON identifier occurs in a stored following list. -/
def countVal (x : MongoVal) : List MongoVal → Nat
  | [] => 0
  | y :: ys => (if x = y then 1 else 0) + countVal x ys

/-- Whether a stored identifier is an ObjectId (as the follow handler
stores them) rather than a raw string (as Tweet.save stores authors). -/
def isOid : MongoVal → Bool
  | MongoVal.oid _ => true
  | MongoVal.str _ => false

/-! ## Concrete sample data used by the witnesses -/

def aliceId : String := "aaaaaaaaaaaaaaaaaaaaaaaa"

def bobId : String := "bbbbbbbbbbbbbbbbbbbbbbbb"

def alice : UserDoc :=
  { _id := aliceId, username := "alice", email := "alice@example.com",
    created_at := 0, following := [] }

def bob : UserDoc :=
  { _id := bobId, username := "bob", email := "bob@example.com",
    created_at := 0, following := [] }

/-- Alice after a follow of Bob went through the follow handler: the
following list holds an ObjectId. -/
def aliceFB : UserDoc :=
  { _id := aliceId, username := "alice", email := "alice@example.com",
    created_at := 0, following := [MongoVal.oid bobId] }

/-- A tweet by Bob whose author field is stored as an ObjectId. -/
def tweetC : TweetDoc :=
  { _id := "cccccccccccccccccccccccc", user_id := MongoVal.oid bobId,
    text := "first", created_at := 1 }

/-- A second tweet by Bob whose author field is stored as an ObjectId. -/
def tweetD : TweetDoc :=
  { _id := "dddddddddddddddddddddddd", user_id := MongoVal.oid bobId,
    text := "second", created_at := 2 }

/-- A tweet by Bob as the POST /tweets handler stores it: the author field
is the raw request string. -/
def strTweet : TweetDoc :=
  { _id := "eeeeeeeeeeeeeeeeeeeeeeee", user_id := MongoVal.str bobId,
    text := "third", created_at := 3 }

/-! ## Helper lemmas -/

theorem validOid_ne_empty {s : String} (h : validOid s = true) : s ≠ "" := by
  intro he
  subst he
  simp [validOid] at h

theorem findUser_append_of_not_mem (pre : List UserDoc) (l : List UserDoc) (i : String)
    (h : ∀ v ∈ pre, v._id ≠ i) :
    findUser (pre ++ l) i = findUser l i := by
  induction pre with
  | nil => rfl
  | cons u rest ih =>
    have hu : u._id ≠ i := h u (by simp)
    simp only [List.cons_append, findUser, if_neg hu]
    exact ih (fun v hv => h v (by simp [hv]))

theorem findUser_split (pre post : List UserDoc) (cu : UserDoc) (i : String)
    (hpre : ∀ v ∈ pre, v._id ≠ i) (hcu : cu._id = i) :
    findUser (pre ++ cu :: post) i = some cu := by
  rw [findUser_append_of_not_mem pre _ i hpre]
  simp [findUser, hcu]

theorem findUser_isSome_same_ids (pre post : List UserDoc) (cu cu2 : UserDoc)
    (h : cu2._id = cu._id) (i : String) :
    (findUser (pre ++ cu2 :: post) i).isSome = (findUser (pre ++ cu :: post) i).isSome := by
  induction pre with
  | nil =>
    by_cases hi : cu._id = i
    · simp [findUser, hi, h]
    · have h2 : cu2._id ≠ i := by rw [h]; exact hi
      simp [findUser, hi, h2]
  | cons u rest ih =>
    by_cases hu : u._id = i
    · simp [findUser, hu]
    · simpa [findUser, hu] using ih

theorem updateOneFollowing_split_new (pre post : List UserDoc) (cu : UserDoc)
    (cid target : String)
    (hpre : ∀ v ∈ pre, v._id ≠ cid) (hcu : cu._id = cid)
    (hnew : MongoVal.oid target ∉ cu.following) :
    updateOneFollowing (pre ++ cu :: post) cid target =
      (pre ++ { cu with following := cu.following ++ [MongoVal.oid target] } :: post, 1) := by
  induction pre with
  | nil => simp [updateOneFollowing, hcu, hnew]
  | cons u rest ih =>
    have hu : u._id ≠ cid := hpre u (by simp)
    have ihr := ih (fun v hv => hpre v (by simp [hv]))
    simp [updateOneFollowing, hu, ihr]

theorem updateOneFollowing_split_already (pre post : List UserDoc) (cu : UserDoc)
    (cid target : String)
    (hpre : ∀ v ∈ pre, v._id ≠ cid) (hcu : cu._id = cid)
    (hold : MongoVal.oid target ∈ cu.following) :
    updateOneFollowing (pre ++ cu :: post) cid target = (pre ++ cu :: post, 0) := by
  induction pre with
  | nil => simp [updateOneFollowing, hcu, hold]
  | cons u rest ih =>
    have hu : u._id ≠ cid := hpre u (by simp)
    have ihr := ih (fun v hv => hpre v (by simp [hv]))
    simp [updateOneFollowing, hu, ihr]

theorem countVal_append (x : MongoVal) (l1 l2 : List MongoVal) :
    countVal x (l1 ++ l2) = countVal x l1 + countVal x l2 := by
  induction l1 with
  | nil => simp [countVal]
  | cons y ys ih => simp [countVal, ih]; omega

theorem countVal_eq_zero_of_not_mem {x : MongoVal} {l : List MongoVal} (h : x ∉ l) :
    countVal x l = 0 := by
  induction l with
  | nil => rfl
  | cons y ys ih =>
    have hxy : x ≠ y := by intro he; exact h (by simp [he])
    have hys : x ∉ ys := fun hm => h (by simp [hm])
    simp [countVal, hxy, ih hys]

theorem inList_eq_true_iff_mem (x : MongoVal) (l : List MongoVal) :
    inList x l = true ↔ x ∈ l := by
  induction l with
  | nil => simp [inList]
  | cons y ys ih =>
    by_cases hxy : x = y
    · simp [inList, hxy]
    · simp [inList, hxy, ih]

/-- On the success path the follow handler appends the target ObjectId to
the following list of the first user document whose _id is the follower
identifier, and leaves everything else in the store unchanged. -/
theorem follow_user_success (db : DB) (target cid : String) (pre post : List UserDoc)
    (cu ut : UserDoc)
    (hvt : validOid target = true) (hvc : validOid cid = true)
    (hsplit : db.users = pre ++ cu :: post)
    (hpre : ∀ v ∈ pre, v._id ≠ cid) (hcu : cu._id = cid)
    (hut : findUser db.users target = some ut)
    (hnew : MongoVal.oid target ∉ cu.following) :
    follow_user db target (some cid) =
      ({ body := create_api_response "success" "User followed successfully"
           (PyVal.dict [("user_id", PyVal.str target)]) PyVal.none (PyVal.int 200),
         code := 200 },
       { db with users :=
           pre ++ { cu with following := cu.following ++ [MongoVal.oid target] } :: post }) := by
  have hcne : cid ≠ "" := validOid_ne_empty hvc
  have hfc : findUser db.users cid = some cu := by
    rw [hsplit]; exact findUser_split pre post cu cid hpre hcu
  have hupd : updateOneFollowing db.users cid target =
      (pre ++ { cu with following := cu.following ++ [MongoVal.oid target] } :: post, 1) := by
    rw [hsplit]; exact updateOneFollowing_split_new pre post cu cid target hpre hcu hnew
  simp [follow_user, falsyStr, hcne, hvt, hvc, hut, hfc, hupd]

/-- When the target ObjectId is already in the following list, the follow
handler leaves the store unchanged and answers 500 "Failed to follow user". -/
theorem follow_user_already (db : DB) (target cid : String) (pre post : List UserDoc)
    (cu ut : UserDoc)
    (hvt : validOid target = true) (hvc : validOid cid = true)
    (hsplit : db.users = pre ++ cu :: post)
    (hpre : ∀ v ∈ pre, v._id ≠ cid) (hcu : cu._id = cid)
    (hut : findUser db.users target = some ut)
    (hold : MongoVal.oid target ∈ cu.following) :
    follow_user db target (some cid) =
      ({ body := create_api_response "error" "Failed to follow user" PyVal.none PyVal.none
           (PyVal.int 500), code := 500 },
       db) := by
  have hcne : cid ≠ "" := validOid_ne_empty hvc
  have hfc : findUser db.users cid = some cu := by
    rw [hsplit]; exact findUser_split pre post cu cid hpre hcu
  have hupd : updateOneFollowing db.users cid target = (db.users, 0) := by
    rw [hsplit]; exact updateOneFollowing_split_already pre post cu cid target hpre hcu hold
  simp [follow_user, falsyStr, hcne, hvt, hvc, hut, hfc, hupd]

/-! ## Claim theorems -/

/-- Claim C1: with users A and B both stored and A not yet following B, a
first Follow(B, A) answers 200; repeating the same Follow(B, A) answers
500 with message "Failed to follow user" because the set-add modifies zero
documents, while at the data level the following set of A still contains B
exactly once. -/
theorem refollow_returns_500_but_following_has_target_once
    (db : DB) (a b : String) (pre post : List UserDoc) (cu ub : UserDoc)
    (hva : validOid a = true) (hvb : validOid b = true)
    (hsplit : db.users = pre ++ cu :: post)
    (hpre : ∀ v ∈ pre, v._id ≠ a) (hcu : cu._id = a)
    (hub : findUser db.users b = some ub)
    (hnew : MongoVal.oid b ∉ cu.following) :
    (follow_user db b (some a)).1.code = 200 ∧
    (follow_user (follow_user db b (some a)).2 b (some a)).1.code = 500 ∧
    getKey (follow_user (follow_user db b (some a)).2 b (some a)).1.body "message"
      = some (PyVal.str "Failed to follow user") ∧
    ∃ cu2, findUser (follow_user (follow_user db b (some a)).2 b (some a)).2.users a = some cu2 ∧
      countVal (MongoVal.oid b) cu2.following = 1 := by
  have h1 := follow_user_success db b a pre post cu ub hvb hva hsplit hpre hcu hub hnew
  have hmem : MongoVal.oid b ∈
      ({ cu with following := cu.following ++ [MongoVal.oid b] } : UserDoc).following := by
    simp
  have hsame := findUser_isSome_same_ids pre post cu
    { cu with following := cu.following ++ [MongoVal.oid b] } rfl b
  have hub1 : (findUser (pre ++
      { cu with following := cu.following ++ [MongoVal.oid b] } :: post) b).isSome = true := by
    rw [hsame, ← hsplit, hub]; rfl
  obtain ⟨ub2, hub2⟩ := Option.isSome_iff_exists.mp hub1
  have h2 := follow_user_already
    { db with users := pre ++ { cu with following := cu.following ++ [MongoVal.oid b] } :: post }
    b a pre post { cu with following := cu.following ++ [MongoVal.oid b] } ub2
    hvb hva rfl hpre hcu hub2 hmem
  refine ⟨by rw [h1], ?_, ?_, ?_⟩
  · rw [h1]
    simp only [h2]
  · rw [h1]
    simp only [h2]
    rfl
  · refine ⟨{ cu with following := cu.following ++ [MongoVal.oid b] }, ?_, ?_⟩
    · rw [h1]
      simp only [h2]
      exact findUser_split pre post _ a hpre hcu
    · simp [countVal_append, countVal_eq_zero_of_not_mem hnew, countVal]

/-- Claim C10: a successful Follow(target, cid) changes only the first user
document whose _id is the follower identifier, and within it only the
following field, which grows by exactly the one target identifier; all
other user documents and the whole tweets collection are unchanged. -/
theorem follow_success_frame
    (db : DB) (target cid : String) (pre post : List UserDoc) (cu ut : UserDoc)
    (hvt : validOid target = true) (hvc : validOid cid = true)
    (hsplit : db.users = pre ++ cu :: post)
    (hpre : ∀ v ∈ pre, v._id ≠ cid) (hcu : cu._id = cid)
    (hut : findUser db.users target = some ut)
    (hnew : MongoVal.oid target ∉ cu.following) :
    (follow_user db target (some cid)).1.code = 200 ∧
    (follow_user db target (some cid)).2.tweets = db.tweets ∧
    (follow_user db target (some cid)).2.users =
      pre ++ { cu with following := cu.following ++ [MongoVal.oid target] } :: post := by
  have h := follow_user_success db target cid pre post cu ut hvt hvc hsplit hpre hcu hut hnew
  rw [h]
  exact ⟨rfl, rfl, rfl⟩

/-- Claim C4 (code bug): the embedded POST /tweets handler persists a tweet
and answers 201 even though no stored user has the given author identifier;
the test suite of the repository and the spec require a 404 "User not found"
here instead. -/
theorem create_tweet_persists_for_missing_author :
    findUser (DB.mk [] []).users "60c72b2f9b1d8a1f6c8d879e" = Option.none ∧
    create_tweet (DB.mk [] []) (some "60c72b2f9b1d8a1f6c8d879e") (some "hello")
        "0123456789abcdef01234567" 0 =
      ({ body := create_api_response "success" "Tweet created successfully"
           (PyVal.dict [("tweet_id", PyVal.str "0123456789abcdef01234567"),
             ("user_id", PyVal.str "60c72b2f9b1d8a1f6c8d879e"),
             ("text", PyVal.str "hello")]) PyVal.none (PyVal.int 201), code := 201 },
       DB.mk []
         [{ _id := "0123456789abcdef01234567",
            user_id := MongoVal.str "60c72b2f9b1d8a1f6c8d879e", text := "hello",
            created_at := 0 }]) :=
  ⟨rfl, rfl⟩

/-- Claim C6 counterexample: the 400 response of the follow handler for a
missing current_user_id is an error envelope whose error field holds null,
so it carries no nested error.details string. -/
theorem follow_missing_field_error_lacks_details
    :
    (follow_user (DB.mk [] []) "60c72b2f9b1d8a1f6c8d879e" Option.none).1.code = 400 ∧
    getKey (follow_user (DB.mk [] []) "60c72b2f9b1d8a1f6c8d879e" Option.none).1.body "status"
      = some (PyVal.str "error") ∧
    getKey (follow_user (DB.mk [] []) "60c72b2f9b1d8a1f6c8d879e" Option.none).1.body "error"
      = some PyVal.none ∧
    getKey PyVal.none "details" = Option.none :=
  ⟨rfl, rfl, rfl, rfl⟩

/-- Claim C6 amended: every error envelope carries a human-readable message,
and envelopes built with an error_details dict expose a nested error.details
string; but the follow handler responses for a missing current_user_id
(400), for a missing user (404) and for a zero-modified update (500), and
the timeline 404 response, carry a null error value with no details. -/
theorem error_details_only_when_supplied :
    (∀ (m det : String) (d : PyVal) (cc c : Nat),
      getKey (create_api_response "error" m d
          (PyVal.dict [("code", PyVal.int cc), ("details", PyVal.str det)]) (PyVal.int c)) "error"
        = some (PyVal.dict [("code", PyVal.int cc), ("details", PyVal.str det)])) ∧
    (∀ (m : String) (e c : PyVal),
      getKey (create_api_response "error" m PyVal.none e c) "message" = some (PyVal.str m)) ∧
    (∀ (db : DB) (uid : String),
      follow_user db uid Option.none =
        ({ body := create_api_response "error" "current_user_id is required" PyVal.none
             PyVal.none (PyVal.int 400), code := 400 }, db)) ∧
    get_user_timeline (DB.mk [] []) "60c72b2f9b1d8a1f6c8d879e" =
      { body := create_api_response "error" "User not found" PyVal.none PyVal.none
          (PyVal.int 404), code := 404 } ∧
    follow_user (DB.mk [] []) "60c72b2f9b1d8a1f6c8d879e" (some "0123456789abcdef01234567") =
      ({ body := create_api_response "error" "User or current user not found" PyVal.none
           PyVal.none (PyVal.int 404), code := 404 }, DB.mk [] []) ∧
    getKey (create_api_response "error" "Failed to follow user" PyVal.none PyVal.none
        (PyVal.int 500)) "error" = some PyVal.none := by
  refine ⟨?_, ?_, ?_, rfl, rfl, rfl⟩
  · intro m det d cc c
    simp [create_api_response, getKey, lookupKey]
  · intro m e c
    simp [create_api_response, getKey, lookupKey]
  · intro db uid
    rfl

/-- Claim C9: the envelope built by create_api_response always carries the
given status and message; the data key is present exactly when the status
is success, the error key exactly when the status is error, never both;
and the code key exactly when the code argument is truthy. -/
theorem create_api_response_key_presence (status message : String) (data error code : PyVal) :
    getKey (create_api_response status message data error code) "status"
      = some (PyVal.str status) ∧
    getKey (create_api_response status message data error code) "message"
      = some (PyVal.str message) ∧
    ((getKey (create_api_response status message data error code) "data").isSome
      ↔ status = "success") ∧
    ((getKey (create_api_response status message data error code) "error").isSome
      ↔ status = "error") ∧
    ¬((getKey (create_api_response status message data error code) "data").isSome ∧
      (getKey (create_api_response status message data error code) "error").isSome) ∧
    ((getKey (create_api_response status message data error code) "code").isSome
      ↔ truthy code = true) := by
  by_cases hs : status = "success"
  · subst hs
    by_cases hc : truthy code <;> simp [create_api_response, getKey, lookupKey, hc]
  · by_cases he : status = "error"
    · subst he
      by_cases hc : truthy code <;> simp [create_api_response, getKey, lookupKey, hc]
    · by_cases hc : truthy code <;> simp [create_api_response, getKey, lookupKey, hs, he, hc]

/-- Claim C5: for non-empty username and email, creating a user and then
calling GetById with the identifier returned at creation yields a user
whose username and email equal the inputs and whose identifier equals the
one returned at creation. -/
theorem create_then_get_by_id_roundtrip
    (db : DB) (un em fid : String) (now : Nat)
    (hun : un ≠ "") (hem : em ≠ "")
    (hv : validOid fid = true)
    (hfresh : ∀ u ∈ db.users, u._id ≠ fid) :
    (create_user db (some un) (some em) fid now).1.code = 201 ∧
    getKey (create_user db (some un) (some em) fid now).1.body "data"
      = some (PyVal.dict [("user_id", PyVal.str fid), ("username", PyVal.str un),
          ("email", PyVal.str em)]) ∧
    User.get_by_id fid (create_user db (some un) (some em) fid now).2
      = Except.ok (some (PyVal.dict [("_id", PyVal.str fid), ("username", PyVal.str un),
          ("email", PyVal.str em), ("created_at", PyVal.int now),
          ("following", PyVal.list [])])) := by
  have hcu : create_user db (some un) (some em) fid now =
      ({ body := create_api_response "success" "User created successfully"
           (PyVal.dict [("user_id", PyVal.str fid), ("username", PyVal.str un),
             ("email", PyVal.str em)]) PyVal.none (PyVal.int 201), code := 201 },
       { db with users := db.users ++
           [{ _id := fid, username := un, email := em, created_at := now, following := [] }] }) := by
    simp [create_user, hun, hem, UserModel.save]
  refine ⟨by rw [hcu], ?_, ?_⟩
  · rw [hcu]
    simp [create_api_response, getKey, lookupKey]
  · rw [hcu]
    have hfind : findUser (db.users ++
        [{ _id := fid, username := un, email := em, created_at := now, following := [] }]) fid
        = some { _id := fid, username := un, email := em, created_at := now, following := [] } := by
      rw [findUser_append_of_not_mem db.users _ fid hfresh]
      simp [findUser]
    simp [User.get_by_id, hv, hfind, userToPy]

/-- Witness for claim C5 at a concrete user-creation request on an empty
store. -/
theorem create_then_get_by_id_roundtrip_witness :
    ("johndoe" ≠ "" ∧ "jd@example.com" ≠ "" ∧
      validOid "0123456789abcdef01234567" = true ∧
      (∀ u ∈ (DB.mk [] []).users, u._id ≠ "0123456789abcdef01234567")) ∧
    ((create_user (DB.mk [] []) (some "johndoe") (some "jd@example.com")
        "0123456789abcdef01234567" 5).1.code = 201 ∧
     getKey (create_user (DB.mk [] []) (some "johndoe") (some "jd@example.com")
        "0123456789abcdef01234567" 5).1.body "data"
      = some (PyVal.dict [("user_id", PyVal.str "0123456789abcdef01234567"),
          ("username", PyVal.str "johndoe"), ("email", PyVal.str "jd@example.com")]) ∧
     User.get_by_id "0123456789abcdef01234567"
        (create_user (DB.mk [] []) (some "johndoe") (some "jd@example.com")
          "0123456789abcdef01234567" 5).2
      = Except.ok (some (PyVal.dict [("_id", PyVal.str "0123456789abcdef01234567"),
          ("username", PyVal.str "johndoe"), ("email", PyVal.str "jd@example.com"),
          ("created_at", PyVal.int 5), ("following", PyVal.list [])]))) :=
  ⟨⟨by decide, by decide, by decide, by decide⟩,
   create_then_get_by_id_roundtrip (DB.mk [] []) "johndoe" "jd@example.com"
     "0123456789abcdef01234567" 5 (by decide) (by decide) (by decide) (by decide)⟩

/-- Claim C7: the timeline of an existing user whose following list is
empty is a success envelope with empty data and message
"No users followed yet". -/
theorem timeline_empty_following
    (db : DB) (uid : String) (u : UserDoc)
    (hv : validOid uid = true)
    (hu : findUser db.users uid = some u)
    (hf : u.following = []) :
    get_user_timeline db uid =
      { body := create_api_response "success" "No users followed yet" (PyVal.list [])
          PyVal.none (PyVal.int 200), code := 200 } ∧
    getKey (get_user_timeline db uid).body "status" = some (PyVal.str "success") ∧
    getKey (get_user_timeline db uid).body "data" = some (PyVal.list []) ∧
    getKey (get_user_timeline db uid).body "message"
      = some (PyVal.str "No users followed yet") := by
  have h : get_user_timeline db uid =
      { body := create_api_response "success" "No users followed yet" (PyVal.list [])
          PyVal.none (PyVal.int 200), code := 200 } := by
    simp [get_user_timeline, hv, hu, hf]
  refine ⟨h, ?_, ?_, ?_⟩ <;> rw [h] <;> rfl

/-- Witness for claim C7 on a store holding one user who follows nobody. -/
theorem timeline_empty_following_witness :
    (validOid "aaaaaaaaaaaaaaaaaaaaaaaa" = true ∧
      findUser (DB.mk
          [{ _id := "aaaaaaaaaaaaaaaaaaaaaaaa", username := "johndoe",
             email := "jd@example.com", created_at := 0, following := [] }] []).users
          "aaaaaaaaaaaaaaaaaaaaaaaa"
        = some { _id := "aaaaaaaaaaaaaaaaaaaaaaaa", username := "johndoe",
                 email := "jd@example.com", created_at := 0, following := [] }) ∧
    get_user_timeline (DB.mk
        [{ _id := "aaaaaaaaaaaaaaaaaaaaaaaa", username := "johndoe",
           email := "jd@example.com", created_at := 0, following := [] }] [])
        "aaaaaaaaaaaaaaaaaaaaaaaa"
      = { body := create_api_response "success" "No users followed yet" (PyVal.list [])
            PyVal.none (PyVal.int 200), code := 200 } :=
  ⟨⟨by decide, by decide⟩,
   (timeline_empty_following
     (DB.mk [{ _id := "aaaaaaaaaaaaaaaaaaaaaaaa", username := "johndoe",
               email := "jd@example.com", created_at := 0, following := [] }] [])
     "aaaaaaaaaaaaaaaaaaaaaaaa"
     { _id := "aaaaaaaaaaaaaaaaaaaaaaaa", username := "johndoe",
       email := "jd@example.com", created_at := 0, following := [] }
     (by decide) (by decide) rfl).1⟩

/-- Claim C8: a user-creation request with a missing or empty username or
email answers 400 with message "Username and email are required" and leaves
the store unchanged; a tweet-creation request with a missing or empty
user_id or text answers 400 with message "User ID and tweet text are
required" and leaves the store unchanged. -/
theorem missing_fields_return_400_and_persist_nothing :
    (∀ (db : DB) (username email : Option String) (fid : String) (now : Nat),
      (falsyStr username || falsyStr email) = true →
      create_user db username email fid now =
        ({ body := create_api_response "error" "Username and email are required" PyVal.none
             (PyVal.dict [("code", PyVal.int 400),
               ("details", PyVal.str "Both username and email are required in the request")])
             (PyVal.int 400), code := 400 }, db)) ∧
    (∀ (db : DB) (user_id text : Option String) (fid : String) (now : Nat),
      (falsyStr user_id || falsyStr text) = true →
      create_tweet db user_id text fid now =
        ({ body := create_api_response "error" "User ID and tweet text are required" PyVal.none
             (PyVal.dict [("code", PyVal.int 400),
               ("details", PyVal.str "Both user_id and text are required in the request")])
             (PyVal.int 400), code := 400 }, db)) := by
  constructor
  · intro db username email fid now h
    cases username with
    | none => rfl
    | some un =>
      cases email with
      | none => rfl
      | some em =>
        have hb : (decide (un = "") || decide (em = "")) = true := by
          simpa [falsyStr] using h
        simp [create_user, hb]
  · intro db user_id text fid now h
    cases user_id with
    | none => rfl
    | some uid =>
      cases text with
      | none => rfl
      | some tx =>
        have hb : (decide (uid = "") || decide (tx = "")) = true := by
          simpa [falsyStr] using h
        simp [create_tweet, hb]

/-- Witness for claim C8: a user creation missing the username and a tweet
creation with empty user_id, both on an empty store. -/
theorem missing_fields_return_400_witness :
    (falsyStr Option.none || falsyStr (some "jd@example.com")) = true ∧
    (create_user (DB.mk [] []) Option.none (some "jd@example.com")
        "0123456789abcdef01234567" 0).1.code = 400 ∧
    (create_user (DB.mk [] []) Option.none (some "jd@example.com")
        "0123456789abcdef01234567" 0).2 = DB.mk [] [] ∧
    (falsyStr (some "") || falsyStr (some "hi")) = true ∧
    (create_tweet (DB.mk [] []) (some "") (some "hi")
        "0123456789abcdef01234567" 0).1.code = 400 ∧
    (create_tweet (DB.mk [] []) (some "") (some "hi")
        "0123456789abcdef01234567" 0).2 = DB.mk [] [] :=
  ⟨by decide,
   by rw [missing_fields_return_400_and_persist_nothing.1 (DB.mk [] []) Option.none
     (some "jd@example.com") "0123456789abcdef01234567" 0 (by decide)],
   by rw [missing_fields_return_400_and_persist_nothing.1 (DB.mk [] []) Option.none
     (some "jd@example.com") "0123456789abcdef01234567" 0 (by decide)],
   by decide,
   by rw [missing_fields_return_400_and_persist_nothing.2 (DB.mk [] []) (some "") (some "hi")
     "0123456789abcdef01234567" 0 (by decide)],
   by rw [missing_fields_return_400_and_persist_nothing.2 (DB.mk [] []) (some "") (some "hi")
     "0123456789abcdef01234567" 0 (by decide)]⟩

theorem mongoToPy_inj {a b : MongoVal} (h : mongoToPy a = mongoToPy b) : a = b := by
  cases a <;> cases b <;> simp [mongoToPy] at h <;> simp [h]

theorem tweetToPy_inj {s t : TweetDoc} (h : tweetToPy s = tweetToPy t) : s = t := by
  cases s with
  | mk i1 u1 x1 c1 =>
    cases t with
    | mk i2 u2 x2 c2 =>
      simp only [tweetToPy, PyVal.dict.injEq, List.cons.injEq, Prod.mk.injEq,
        PyVal.str.injEq, PyVal.int.injEq, and_true, true_and] at h
      obtain ⟨h1, h2, h3, h4⟩ := h
      simp [h1, h3, h4, mongoToPy_inj h2]

/-- Claim C2: when an existing user follows exactly one author identifier
and the stored tweets with that author identifier (in the same BSON
representation) are T1 and T2, the timeline returns exactly those two
tweets. -/
theorem timeline_returns_exactly_followed_tweets
    (db : DB) (uid : String) (u : UserDoc) (v : MongoVal) (t1 t2 : TweetDoc)
    (l1 l2 l3 : List TweetDoc)
    (hv : validOid uid = true)
    (hu : findUser db.users uid = some u)
    (hf : u.following = [v])
    (ht : db.tweets = l1 ++ t1 :: (l2 ++ t2 :: l3))
    (h1 : t1.user_id = v) (h2 : t2.user_id = v)
    (hl1 : ∀ t ∈ l1, t.user_id ≠ v) (hl2 : ∀ t ∈ l2, t.user_id ≠ v)
    (hl3 : ∀ t ∈ l3, t.user_id ≠ v) :
    get_user_timeline db uid =
      { body := create_api_response "success" "Timeline retrieved successfully"
          (PyVal.list [tweetToPy t1, tweetToPy t2]) PyVal.none (PyVal.int 200),
        code := 200 } := by
  have hfl : db.tweets.filter (fun t => inList t.user_id [v]) = [t1, t2] := by
    rw [ht, List.filter_append,
      List.filter_cons_of_pos (by simp [inList, h1]),
      List.filter_append,
      List.filter_cons_of_pos (by simp [inList, h2]),
      List.filter_eq_nil_iff.mpr (fun t htl => by simp [inList, hl1 t htl]),
      List.filter_eq_nil_iff.mpr (fun t htl => by simp [inList, hl2 t htl]),
      List.filter_eq_nil_iff.mpr (fun t htl => by simp [inList, hl3 t htl])]
    simp
  simp [get_user_timeline, hv, hu, hf, hfl]

/-- Witness for claim C2: Alice follows Bob (ObjectId representation on
both sides) and Bob has authored exactly the two stored tweets. -/
theorem timeline_returns_exactly_followed_tweets_witness :
    (validOid aliceId = true ∧
      findUser (DB.mk [aliceFB, bob] [tweetC, tweetD]).users aliceId = some aliceFB ∧
      aliceFB.following = [MongoVal.oid bobId] ∧
      (DB.mk [aliceFB, bob] [tweetC, tweetD]).tweets = [] ++ tweetC :: ([] ++ tweetD :: []) ∧
      tweetC.user_id = MongoVal.oid bobId ∧ tweetD.user_id = MongoVal.oid bobId) ∧
    get_user_timeline (DB.mk [aliceFB, bob] [tweetC, tweetD]) aliceId =
      { body := create_api_response "success" "Timeline retrieved successfully"
          (PyVal.list [tweetToPy tweetC, tweetToPy tweetD]) PyVal.none (PyVal.int 200),
        code := 200 } :=
  ⟨⟨by decide, by decide, by decide, by decide, by decide, by decide⟩,
   timeline_returns_exactly_followed_tweets (DB.mk [aliceFB, bob] [tweetC, tweetD])
     aliceId aliceFB (MongoVal.oid bobId) tweetC tweetD [] [] []
     (by decide) (by decide) (by decide) (by decide) (by decide) (by decide)
     (by decide) (by decide) (by decide)⟩

/-- Claim C3: when the following list of a user holds only ObjectId values
(as the follow handler writes them) and a stored tweet has a raw-string
author field (as the POST /tweets handler writes them), that tweet never
appears in the timeline of the follower, even though the follower follows
the author of the tweet. -/
theorem string_author_tweet_never_in_oid_timeline
    (db : DB) (uid a : String) (u : UserDoc) (t : TweetDoc)
    (hv : validOid uid = true)
    (hu : findUser db.users uid = some u)
    (hoids : ∀ f ∈ u.following, isOid f = true)
    (hfol : MongoVal.oid a ∈ u.following)
    (ht : t ∈ db.tweets)
    (ha : t.user_id = MongoVal.str a) :
    get_user_timeline db uid =
      { body := create_api_response "success" "Timeline retrieved successfully"
          (PyVal.list ((db.tweets.filter
            (fun tw => inList tw.user_id u.following)).map tweetToPy))
          PyVal.none (PyVal.int 200), code := 200 } ∧
    t ∉ db.tweets.filter (fun tw => inList tw.user_id u.following) ∧
    tweetToPy t ∉ (db.tweets.filter
      (fun tw => inList tw.user_id u.following)).map tweetToPy := by
  have hne : u.following.isEmpty = false := by
    cases hfe : u.following with
    | nil => rw [hfe] at hfol; cases hfol
    | cons x xs => rfl
  have hnotin : t ∉ db.tweets.filter (fun tw => inList tw.user_id u.following) := by
    intro hmem
    have hpt := (List.mem_filter.mp hmem).2
    have hm : t.user_id ∈ u.following := (inList_eq_true_iff_mem _ _).mp hpt
    have hod := hoids _ hm
    rw [ha] at hod
    simp [isOid] at hod
  refine ⟨?_, hnotin, ?_⟩
  · simp [get_user_timeline, hv, hu, hne]
  · intro hmem
    obtain ⟨t2, ht2, he⟩ := List.mem_map.mp hmem
    exact hnotin (tweetToPy_inj he ▸ ht2)

/-- Witness for claim C3: Alice follows Bob via the follow handler
(ObjectId in the following list) while the stored tweet of Bob carries a
raw-string author field, so the tweet is absent from the timeline. -/
theorem string_author_tweet_never_in_oid_timeline_witness :
    (validOid aliceId = true ∧
      findUser (DB.mk [aliceFB, bob] [strTweet]).users aliceId = some aliceFB ∧
      (∀ f ∈ aliceFB.following, isOid f = true) ∧
      MongoVal.oid bobId ∈ aliceFB.following ∧
      strTweet ∈ (DB.mk [aliceFB, bob] [strTweet]).tweets ∧
      strTweet.user_id = MongoVal.str bobId) ∧
    tweetToPy strTweet ∉ ((DB.mk [aliceFB, bob] [strTweet]).tweets.filter
      (fun tw => inList tw.user_id aliceFB.following)).map tweetToPy :=
  ⟨⟨by decide, by decide, by decide, by decide, by decide, by decide⟩,
   (string_author_tweet_never_in_oid_timeline (DB.mk [aliceFB, bob] [strTweet])
     aliceId bobId aliceFB strTweet
     (by decide) (by decide) (by decide) (by decide) (by decide) (by decide)).2.2⟩

/-- Witness for claim C1: Alice and Bob stored, Alice not yet following
Bob; the first follow answers 200 and the repeated follow answers 500. -/
theorem refollow_returns_500_witness :
    (validOid aliceId = true ∧ validOid bobId = true ∧
      (DB.mk [alice, bob] []).users = [] ++ alice :: [bob] ∧
      alice._id = aliceId ∧
      findUser (DB.mk [alice, bob] []).users bobId = some bob ∧
      MongoVal.oid bobId ∉ alice.following) ∧
    (follow_user (DB.mk [alice, bob] []) bobId (some aliceId)).1.code = 200 ∧
    (follow_user (follow_user (DB.mk [alice, bob] []) bobId (some aliceId)).2 bobId
      (some aliceId)).1.code = 500 :=
  ⟨⟨by decide, by decide, by decide, by decide, by decide, by decide⟩,
   (refollow_returns_500_but_following_has_target_once (DB.mk [alice, bob] [])
     aliceId bobId [] [bob] alice bob (by decide) (by decide) (by decide)
     (by decide) (by decide) (by decide) (by decide)).1,
   (refollow_returns_500_but_following_has_target_once (DB.mk [alice, bob] [])
     aliceId bobId [] [bob] alice bob (by decide) (by decide) (by decide)
     (by decide) (by decide) (by decide) (by decide)).2.1⟩

/-- Witness for claim C10: the successful follow of Bob by Alice changes
only the document of Alice, appending the one ObjectId of Bob, and leaves
the tweets collection unchanged. -/
theorem follow_success_frame_witness :
    (validOid bobId = true ∧ validOid aliceId = true ∧
      (DB.mk [alice, bob] [tweetC]).users = [] ++ alice :: [bob] ∧
      alice._id = aliceId ∧
      findUser (DB.mk [alice, bob] [tweetC]).users bobId = some bob ∧
      MongoVal.oid bobId ∉ alice.following) ∧
    (follow_user (DB.mk [alice, bob] [tweetC]) bobId (some aliceId)).1.code = 200 ∧
    (follow_user (DB.mk [alice, bob] [tweetC]) bobId (some aliceId)).2.tweets
      = (DB.mk [alice, bob] [tweetC]).tweets ∧
    (follow_user (DB.mk [alice, bob] [tweetC]) bobId (some aliceId)).2.users
      = [] ++ { alice with following := alice.following ++ [MongoVal.oid bobId] } :: [bob] :=
  ⟨⟨by decide, by decide, by decide, by decide, by decide, by decide⟩,
   (follow_success_frame (DB.mk [alice, bob] [tweetC]) bobId aliceId [] [bob] alice bob
     (by decide) (by decide) (by decide) (by decide) (by decide) (by decide) (by decide)).1,
   (follow_success_frame (DB.mk [alice, bob] [tweetC]) bobId aliceId [] [bob] alice bob
     (by decide) (by decide) (by decide) (by decide) (by decide) (by decide) (by decide)).2.1,
   (follow_success_frame (DB.mk [alice, bob] [tweetC]) bobId aliceId [] [bob] alice bob
     (by decide) (by decide) (by decide) (by decide) (by decide) (by decide) (by decide)).2.2⟩
